import Mathlib

/-!
Shallow embedding of the callback presenter of strands_agents_builder
(handlers/callback_handler.py) together with the knowledge-base storage
entry point (tools/store_in_kb.py).  Python values are modelled with
explicit options and strings; the loosely typed keyword-argument bag of
`callback_handler` is a structure of optional fields whose defaults match
`kwargs.get` defaults in the source.  Rendering-layer calls may raise: the
model threads a fault oracle `RSite → Bool` saying which rendering call
sites raise, and the handler runs in `Except Unit`, mirroring exactly which
call sites the source wraps in its try/except block.
-/

namespace Arky

/-- Incremental view of the currently invoked tool
(`kwargs.get("current_tool_use", {})`). -/
structure ToolUse where
  toolUseId : Option String := none
  name : Option String := none
  input : String := ""
deriving DecidableEq

/-- One `toolResult` payload inside a user message content block. -/
structure ToolResult where
  toolUseId : Option String := none
  status : Option String := none
deriving DecidableEq

/-- One `toolUse` payload inside an assistant message content block. -/
structure ToolUseBlock where
  name : Option String := none
deriving DecidableEq

/-- One content block of a finalized chat message. -/
structure ContentBlock where
  toolUse : Option ToolUseBlock := none
  toolResult : Option ToolResult := none
deriving DecidableEq

/-- A finalized chat message (`kwargs.get("message", {})`). -/
structure Message where
  role : Option String := none
  content : List ContentBlock := []
deriving DecidableEq

/-- The keyword-argument bag of one `callback_handler` invocation.  Field
defaults are the `kwargs.get` defaults of the source; Python truthiness of
a string is modelled as being nonempty and of a dict as being `some`. -/
structure CallbackRecord where
  reasoningText : String := ""
  data : String := ""
  complete : Bool := false
  force_stop : Bool := false
  message : Option Message := none
  current_tool_use : Option ToolUse := none
  init_event_loop : Bool := false
  start_event_loop : Bool := false
  event_loop_throttled_delay : Option Nat := none
  console : Bool := false
deriving DecidableEq

/-- The rich `Status` thinking indicator; only liveness is observable. -/
structure ThinkingStatus where
  active : Bool
deriving DecidableEq

/-- The halo-backed `ToolSpinner` wrapper of the source. -/
structure ToolSpinner where
  active : Bool
  current_text : String
deriving DecidableEq

/-- One entry of `self.tool_histories` (name, start_time, input_size). -/
structure ToolHistoryEntry where
  name : Option String
  start_time : Nat
  input_size : Nat
deriving DecidableEq

/-- The mutable attributes of the `CallbackHandler` class.  Dictionary
keys are `Option String` because a `toolUseId` may be missing (Python
`None` is a legal dict key). -/
structure CallbackHandler where
  thinking_spinner : Option ThinkingStatus
  current_spinner : Option ToolSpinner
  current_tool : Option String
  tool_histories : List (Option String × ToolHistoryEntry)
deriving DecidableEq

/-- The state produced by `CallbackHandler.__init__`. -/
def initCallbackHandler : CallbackHandler :=
  { thinking_spinner := none, current_spinner := none,
    current_tool := none, tool_histories := [] }

/-- Observable rendering-layer effects of one handler invocation. -/
inductive OutEvent where
  | thinkingStopEv
  | thinkingStartEv (text : String)
  | thinkingUpdateEv (text : String)
  | printReason (text : String)
  | consolePrint (text : String)
  | printData (text : String) (newline : Bool)
  | spinnerStopEv
  | spinnerStart (text : String)
  | spinnerUpdate (text : String)
  | spinnerSucceed (text : String)
  | spinnerFail (text : String)
  | spinnerInfo (text : String)
deriving DecidableEq

/-- Rendering-layer call sites of `callback_handler` that may raise. -/
inductive RSite where
  | preemptStop
  | statusStart
  | reasonPrint
  | statusUpdate
  | throttleSpinStop
  | throttleConsole
  | forceThinkStop
  | forceSpinStop
  | dataPrint
  | newSpinStop
  | spinStart
  | spinUpdate
  | spinInfo
  | spinSucceed
  | spinFail
deriving DecidableEq

/-- The oracle in which no rendering call raises. -/
def noFaults : RSite → Bool := fun _ => false

/-- Call sites that lie inside the try/except block of the source (the
thinking-indicator preemption, status lifecycle and reasoning print). -/
def inThinkingTry : RSite → Bool
  | RSite.preemptStop => true
  | RSite.statusStart => true
  | RSite.reasonPrint => true
  | RSite.statusUpdate => true
  | _ => false

/-- Python `str(x)` for an optional string (None prints as "None"). -/
def pyOptStr : Option String → String
  | none => "None"
  | some s => s

def retrievingText : String := "[blue] retrieving memories...[/blue]"

def thinkingText : String := "[blue] thinking...[/blue]"

def preparingText (nm : Option String) : String :=
  "🛠️  " ++ pyOptStr nm ++ ": Preparing..."

def charsText (nm : Option String) (n : Nat) : String :=
  "🛠️  " ++ pyOptStr nm ++ ": " ++ toString n ++ " chars"

def startingText (nm : Option String) : String :=
  "🔧 Starting " ++ pyOptStr nm ++ "..."

def throttleText (d : Nat) : String :=
  "[red]Throttled! Waiting [bold]" ++ toString d ++
    " seconds[/bold] before retrying...[/red]"

def completedText (nm : Option String) (dur : Nat) : String :=
  pyOptStr nm ++ " completed in " ++ toString dur ++ "s"

def failedText (nm : Option String) (dur : Nat) : String :=
  pyOptStr nm ++ " failed after " ++ toString dur ++ "s"

/-- Python dict lookup on the tool-history mapping. -/
def dictLookup (k : Option String) :
    List (Option String × ToolHistoryEntry) → Option ToolHistoryEntry
  | [] => none
  | p :: rest => if p.1 = k then some p.2 else dictLookup k rest

/-- Python dict assignment: update in place when the key exists,
otherwise append. -/
def dictInsert (k : Option String) (v : ToolHistoryEntry) :
    List (Option String × ToolHistoryEntry) →
    List (Option String × ToolHistoryEntry)
  | [] => [(k, v)]
  | p :: rest => if p.1 = k then (k, v) :: rest else p :: dictInsert k v rest

/-- Python `del` on the tool-history mapping. -/
def dictErase (k : Option String) :
    List (Option String × ToolHistoryEntry) →
    List (Option String × ToolHistoryEntry)
  | [] => []
  | p :: rest => if p.1 = k then rest else p :: dictErase k rest

/-- Effect of `self.thinking_spinner.stop()` on the state. -/
def stopThinking (s : CallbackHandler) : CallbackHandler :=
  { s with thinking_spinner := s.thinking_spinner.map fun _ => ⟨false⟩ }

/-- Effect of `self.current_spinner.stop()` on the state. -/
def stopSpinner (s : CallbackHandler) : CallbackHandler :=
  { s with current_spinner :=
      s.current_spinner.map fun sp => { sp with active := false } }

/-- State paired with the rendering events emitted so far. -/
abbrev Res := CallbackHandler × List OutEvent

/-- Result of a handler fragment outside the try/except block: an
uncaught exception aborts the whole call. -/
abbrev ExRes := Except Unit Res

/-- Line 105: `if self.thinking_spinner and (data or current_tool_use):
self.thinking_spinner.stop()`.  An error carries the partial state, since
the enclosing except clause resumes from it. -/
def tryStep1 (f : RSite → Bool) (s : CallbackHandler) (r : CallbackRecord) :
    Except Res Res :=
  if s.thinking_spinner.isSome ∧ (r.data ≠ "" ∨ r.current_tool_use.isSome) then
    if f RSite.preemptStop then Except.error (s, [])
    else Except.ok (stopThinking s, [OutEvent.thinkingStopEv])
  else Except.ok (s, [])

/-- Lines 108-114: `if init_event_loop`: assign a fresh Status, then start
it.  The assignment lands before the start call, so a raising start leaves
the fresh (inactive) status in place. -/
def tryStep2 (f : RSite → Bool) (r : CallbackRecord) : Res → Except Res Res :=
  fun x =>
    if r.init_event_loop then
      let s' := { x.1 with thinking_spinner := some ⟨false⟩ }
      if f RSite.statusStart then Except.error (s', x.2)
      else Except.ok ({ x.1 with thinking_spinner := some ⟨true⟩ },
        x.2 ++ [OutEvent.thinkingStartEv retrievingText])
    else Except.ok x

/-- Lines 116-117: `if reasoningText: print(reasoningText, end="")`. -/
def tryStep3 (f : RSite → Bool) (r : CallbackRecord) : Res → Except Res Res :=
  fun x =>
    if r.reasoningText ≠ "" then
      if f RSite.reasonPrint then Except.error x
      else Except.ok (x.1, x.2 ++ [OutEvent.printReason r.reasoningText])
    else Except.ok x

/-- Lines 119-120: `if start_event_loop: self.thinking_spinner.update(...)`.
When the spinner is still `None` this raises an AttributeError, which the
enclosing except clause also swallows. -/
def tryStep4 (f : RSite → Bool) (r : CallbackRecord) : Res → Except Res Res :=
  fun x =>
    if r.start_event_loop then
      match x.1.thinking_spinner with
      | none => Except.error x
      | some _ =>
        if f RSite.statusUpdate then Except.error x
        else Except.ok (x.1, x.2 ++ [OutEvent.thinkingUpdateEv thinkingText])
    else Except.ok x

/-- Lines 101-122: the try/except block; every exception raised inside is
swallowed and execution resumes from the partial state. -/
def tryPhase (f : RSite → Bool) (s : CallbackHandler) (r : CallbackRecord) :
    Res :=
  match (do
    let a ← tryStep1 f s r
    let b ← tryStep2 f r a
    let c ← tryStep3 f r b
    tryStep4 f r c : Except Res Res) with
  | Except.ok x => x
  | Except.error x => x

/-- Lines 124-129: `if event_loop_throttled_delay and console`: stop the
tool spinner when present, then print the throttle notice. -/
def throttlePhase (f : RSite → Bool) (r : CallbackRecord) : Res → ExRes :=
  fun x =>
    match r.event_loop_throttled_delay with
    | none => Except.ok x
    | some d =>
      if d ≠ 0 ∧ r.console then
        match x.1.current_spinner with
        | some _ =>
          if f RSite.throttleSpinStop then Except.error ()
          else if f RSite.throttleConsole then Except.error ()
          else Except.ok (stopSpinner x.1,
            x.2 ++ [OutEvent.spinnerStopEv, OutEvent.consolePrint (throttleText d)])
        | none =>
          if f RSite.throttleConsole then Except.error ()
          else Except.ok (x.1, x.2 ++ [OutEvent.consolePrint (throttleText d)])
      else Except.ok x

/-- Lines 134-135: `if self.current_spinner: self.current_spinner.stop()`
inside the force-stop branch. -/
def forceSpinStep (f : RSite → Bool) : Res → ExRes := fun x =>
  match x.1.current_spinner with
  | none => Except.ok x
  | some _ =>
    if f RSite.forceSpinStop then Except.error ()
    else Except.ok (stopSpinner x.1, x.2 ++ [OutEvent.spinnerStopEv])

/-- Lines 131-135: the force-stop branch. -/
def forcePhase (f : RSite → Bool) (r : CallbackRecord) : Res → ExRes :=
  fun x =>
    if r.force_stop then
      match x.1.thinking_spinner with
      | none => forceSpinStep f x
      | some _ =>
        if f RSite.forceThinkStop then Except.error ()
        else forceSpinStep f (stopThinking x.1, x.2 ++ [OutEvent.thinkingStopEv])
    else Except.ok x

/-- Lines 138-143: stream `data` to stdout, newline exactly when
`complete`. -/
def dataPhase (f : RSite → Bool) (r : CallbackRecord) : Res → ExRes :=
  fun x =>
    if r.data ≠ "" then
      if f RSite.dataPrint then Except.error ()
      else Except.ok (x.1, x.2 ++ [OutEvent.printData r.data r.complete])
    else Except.ok x

/-- Lines 157-167 without the preceding spinner stop: assign
`current_tool`, assign and start a fresh `ToolSpinner` (assignment before
start, so a raising start leaves the fresh inactive spinner and the new
`current_tool` in place with no history entry), then record the tool
start. -/
def toolStartSpinner (f : RSite → Bool) (now : Nat) (tu : ToolUse)
    (s : CallbackHandler) (out : List OutEvent) : ExRes :=
  let s1 := { s with current_tool := tu.toolUseId }
  let freshSpinner : ToolSpinner := ⟨false, preparingText tu.name⟩
  let s2 := { s1 with current_spinner := some freshSpinner }
  if f RSite.spinStart then Except.error ()
  else
    let startedSpinner : ToolSpinner := ⟨true, preparingText tu.name⟩
    let s3 := { s2 with current_spinner := some startedSpinner }
    let entry : ToolHistoryEntry := ⟨tu.name, now, 0⟩
    let hs := dictInsert tu.toolUseId entry s3.tool_histories
    let s4 := { s3 with tool_histories := hs }
    Except.ok (s4, out ++ [OutEvent.spinnerStart (preparingText tu.name)])

/-- Lines 152-167: `if tool_id != self.current_tool`: stop the previous
spinner when present, then start the new tool. -/
def toolNewPart (f : RSite → Bool) (now : Nat) (tu : ToolUse) : Res → ExRes :=
  fun x =>
    if tu.toolUseId = x.1.current_tool then Except.ok x
    else
      match x.1.current_spinner with
      | some _ =>
        if f RSite.newSpinStop then Except.error ()
        else toolStartSpinner f now tu (stopSpinner x.1)
          (x.2 ++ [OutEvent.spinnerStopEv])
      | none => toolStartSpinner f now tu x.1 x.2

/-- Lines 170-175: the monotone progress update; the history entry is
bumped before the spinner is updated. -/
def toolUpdatePart (f : RSite → Bool) (tu : ToolUse) : Res → ExRes :=
  fun x =>
    match dictLookup tu.toolUseId x.1.tool_histories with
    | none => Except.ok x
    | some e =>
      let current_size := tu.input.length
      if current_size > e.input_size then
        let bumped : ToolHistoryEntry := { e with input_size := current_size }
        let hs := dictInsert tu.toolUseId bumped x.1.tool_histories
        let s1 := { x.1 with tool_histories := hs }
        match s1.current_spinner with
        | some sp =>
          if f RSite.spinUpdate then Except.error ()
          else
            let sp' : ToolSpinner := { sp with current_text := charsText tu.name current_size }
            Except.ok ({ s1 with current_spinner := some sp' },
              x.2 ++ [OutEvent.spinnerUpdate (charsText tu.name current_size)])
        | none => Except.ok (s1, x.2)
      else Except.ok x

/-- Lines 146-175: the tool-input streaming section, guarded by
`current_tool_use and current_tool_use.get("input")`. -/
def toolPhase (f : RSite → Bool) (now : Nat) (r : CallbackRecord) :
    Res → ExRes := fun x =>
  match r.current_tool_use with
  | none => Except.ok x
  | some tu =>
    if tu.input ≠ "" then
      match toolNewPart f now tu x with
      | Except.error e => Except.error e
      | Except.ok y => toolUpdatePart f tu y
    else Except.ok x

/-- Lines 180-187: assistant messages post an informational transition on
the active spinner for every `toolUse` content block. -/
def assistantLoop (f : RSite → Bool) : List ContentBlock → Res → ExRes
  | [], x => Except.ok x
  | c :: rest, x =>
    match c.toolUse with
    | none => assistantLoop f rest x
    | some tub =>
      match x.1.current_spinner with
      | none => assistantLoop f rest x
      | some _ =>
        if f RSite.spinInfo then Except.error ()
        else
          let sp' : ToolSpinner := ⟨false, startingText tub.name⟩
          assistantLoop f rest
            ({ x.1 with current_spinner := some sp' },
             x.2 ++ [OutEvent.spinnerInfo (startingText tub.name)])

/-- Lines 219-222: erase the history entry and clear the spinner and
current-tool fields. -/
def userCleanup (tool_id : Option String) (s : CallbackHandler) :
    CallbackHandler :=
  { s with tool_histories := dictErase tool_id s.tool_histories,
           current_spinner := none, current_tool := none }

/-- Lines 190-222: user messages resolve every `toolResult` content block
whose id is tracked: mark the spinner succeeded or failed, then clean up.
A raising spinner call aborts before the cleanup runs. -/
def userLoop (f : RSite → Bool) (now : Nat) : List ContentBlock → Res → ExRes
  | [], x => Except.ok x
  | c :: rest, x =>
    match c.toolResult with
    | none => userLoop f now rest x
    | some tr =>
      match dictLookup tr.toolUseId x.1.tool_histories with
      | none => userLoop f now rest x
      | some info =>
        let dur := now - info.start_time
        if tr.status = some "success" then
          match x.1.current_spinner with
          | some _ =>
            if f RSite.spinSucceed then Except.error ()
            else userLoop f now rest (userCleanup tr.toolUseId x.1,
              x.2 ++ [OutEvent.spinnerSucceed (completedText info.name dur)])
          | none => userLoop f now rest (userCleanup tr.toolUseId x.1, x.2)
        else
          match x.1.current_spinner with
          | some _ =>
            if f RSite.spinFail then Except.error ()
            else userLoop f now rest (userCleanup tr.toolUseId x.1,
              x.2 ++ [OutEvent.spinnerFail (failedText info.name dur)])
          | none => userLoop f now rest (userCleanup tr.toolUseId x.1, x.2)

/-- Lines 177-222: message-derived transitions. -/
def messagePhase (f : RSite → Bool) (now : Nat) (r : CallbackRecord) :
    Res → ExRes := fun x =>
  match r.message with
  | none => Except.ok x
  | some m =>
    if m.role = some "assistant" then assistantLoop f m.content x
    else if m.role = some "user" then userLoop f now m.content x
    else Except.ok x

/-- The whole `CallbackHandler.callback_handler` body, phase by phase in
source order.  An uncaught rendering exception aborts the call with
`Except.error ()`. -/
def callback_handler (f : RSite → Bool) (now : Nat) (s : CallbackHandler)
    (r : CallbackRecord) : ExRes :=
  match throttlePhase f r (tryPhase f s r) with
  | Except.error e => Except.error e
  | Except.ok x1 =>
    match forcePhase f r x1 with
    | Except.error e => Except.error e
    | Except.ok x2 =>
      match dataPhase f r x2 with
      | Except.error e => Except.error e
      | Except.ok x3 =>
        match toolPhase f now r x3 with
        | Except.error e => Except.error e
        | Except.ok x4 => messagePhase f now r x4

/-- Run a sequence of invocations, each with its own clock reading,
accumulating the rendering events. -/
def runSeq (f : RSite → Bool) :
    List (Nat × CallbackRecord) → CallbackHandler → ExRes
  | [], s => Except.ok (s, [])
  | p :: rest, s =>
    match callback_handler f p.1 s p.2 with
    | Except.error e => Except.error e
    | Except.ok x =>
      match runSeq f rest x.1 with
      | Except.error e => Except.error e
      | Except.ok y => Except.ok (y.1, x.2 ++ y.2)

/-- One invocation as an optional result (none on uncaught exception). -/
def runOne (f : RSite → Bool) (now : Nat) (s : CallbackHandler)
    (r : CallbackRecord) : Option Res :=
  (callback_handler f now s r).toOption

/-- The state after one invocation, when no exception escapes. -/
def stateAfter (f : RSite → Bool) (now : Nat) (s : CallbackHandler)
    (r : CallbackRecord) : Option CallbackHandler :=
  (runOne f now s r).map Prod.fst

/-- The binding of one tool id after one invocation. -/
def lookupAfter (f : RSite → Bool) (now : Nat) (s : CallbackHandler)
    (r : CallbackRecord) (k : Option String) :
    Option (Option ToolHistoryEntry) :=
  (runOne f now s r).map fun x => dictLookup k x.1.tool_histories

/-- The whole tool-history mapping after one invocation. -/
def historiesAfter (f : RSite → Bool) (now : Nat) (s : CallbackHandler)
    (r : CallbackRecord) : Option (List (Option String × ToolHistoryEntry)) :=
  (runOne f now s r).map fun x => x.1.tool_histories

/-- Agreement of two states on everything except the thinking
indicator: the try/except block touches no other attribute. -/
def eqButThinking (a b : CallbackHandler) : Prop :=
  a.current_spinner = b.current_spinner ∧ a.current_tool = b.current_tool ∧
    a.tool_histories = b.tool_histories

def isSizeUpdate : OutEvent → Bool
  | OutEvent.spinnerUpdate _ => true
  | _ => false

def isSpinLifecycle : OutEvent → Bool
  | OutEvent.spinnerStopEv => true
  | OutEvent.spinnerStart _ => true
  | _ => false

def isThrottleNotice : OutEvent → Bool
  | OutEvent.consolePrint _ => true
  | _ => false

/-- The progress-size spinner updates shown during one invocation. -/
def sizeUpdatesAfter (f : RSite → Bool) (now : Nat) (s : CallbackHandler)
    (r : CallbackRecord) : Option (List OutEvent) :=
  (runOne f now s r).map fun x => x.2.filter isSizeUpdate

/-- The tool-spinner stop/start events of one invocation, in order. -/
def spinEventsAfter (f : RSite → Bool) (now : Nat) (s : CallbackHandler)
    (r : CallbackRecord) : Option (List OutEvent) :=
  (runOne f now s r).map fun x => x.2.filter isSpinLifecycle

/-- The throttle notices printed during one invocation. -/
def noticesAfter (f : RSite → Bool) (now : Nat) (s : CallbackHandler)
    (r : CallbackRecord) : Option (List OutEvent) :=
  (runOne f now s r).map fun x => x.2.filter isThrottleNotice

/-- A record carrying only a `current_tool_use` payload. -/
def toolUseRecord (tid : Option String) (nm : Option String) (inp : String) :
    CallbackRecord :=
  { current_tool_use := some ({ toolUseId := tid, name := nm, input := inp }) }

/-- A record carrying only a user message with one `toolResult` block. -/
def toolResultRecord (tid : Option String) (st : Option String) :
    CallbackRecord :=
  { message := some ⟨some "user", [⟨none, some ⟨tid, st⟩⟩]⟩ }

/-- A record carrying only a throttle delay and console flag. -/
def throttleRecord (d : Option Nat) (c : Bool) : CallbackRecord :=
  { event_loop_throttled_delay := d, console := c }

/-- A record carrying only `force_stop`. -/
def forceStopRecord : CallbackRecord := { force_stop := true }

/-- Both live indicators deactivated, everything else untouched. -/
def deactivated (s : CallbackHandler) : CallbackHandler :=
  stopSpinner (stopThinking s)

/-- Fault oracle raising exactly at the force-stop spinner stop site. -/
def onlyForceSpinFault : RSite → Bool
  | RSite.forceSpinStop => true
  | _ => false

/-- Python `str.isspace` membership for the characters `str.strip`
removes. -/
def pyIsSpace (c : Char) : Bool :=
  c = ' ' || c = '\t' || c = '\n' || c = '\r' || c = '\x0b' || c = '\x0c'

/-- Python truthiness of an optional string (None and "" are falsy). -/
def pyStrTruthy : Option String → Bool
  | none => false
  | some s => s != ""

/-- The process environment slice read by `store_in_kb`. -/
structure KBEnv where
  strands_knowledge_base_id : Option String
  aws_region : Option String
deriving DecidableEq

/-- The synchronous return value of `store_in_kb`. -/
structure KBResult where
  status : String
  content : List String
deriving DecidableEq

/-- The arguments handed to the detached background worker
`_store_in_kb_background`; its outcome never flows back to the caller. -/
structure KBBackgroundTask where
  content : String
  title : String
  kb_id : String
  region_name : String
deriving DecidableEq

def kbEmptyError : KBResult :=
  { status := "error", content := ["‚ùå Content cannot be empty"] }

def kbNoIdError : KBResult :=
  { status := "error",
    content := ["‚ùå No knowledge base ID provided or found in environment variables STRANDS_KNOWLEDGE_BASE_ID"] }

def kbSuccessResult (doc_title kb_id : String) : KBResult :=
  { status := "success",
    content := ["‚úÖ Started background task to store content in knowledge base:",
                "üìù Title: " ++ doc_title,
                "üóÑÔ∏è Knowledge Base ID: " ++ kb_id,
                "‚è±Ô∏è Processing in background..."] }

/-- `knowledge_base_id or os.getenv("STRANDS_KNOWLEDGE_BASE_ID")`. -/
def resolveKbId (knowledge_base_id : Option String) (env : KBEnv) :
    Option String :=
  if pyStrTruthy knowledge_base_id then knowledge_base_id
  else env.strands_knowledge_base_id

/-- The synchronous body of `store_in_kb` (tools/store_in_kb.py, lines
120-169): validate content and knowledge-base id, then return immediately,
handing the write to a detached background task (`none` when no task is
spawned).  `now_str` stands for `time.strftime` at call time. -/
def store_in_kb (content : String) (title : Option String)
    (knowledge_base_id : Option String) (env : KBEnv) (now_str : String) :
    KBResult × Option KBBackgroundTask :=
  if content = "" ∨ content.toList.all pyIsSpace then
    (kbEmptyError, none)
  else
    let kb_id := resolveKbId knowledge_base_id env
    if pyStrTruthy kb_id = false then
      (kbNoIdError, none)
    else
      let region_name := env.aws_region.getD "us-west-2"
      let doc_title :=
        if pyStrTruthy title then title.getD ""
        else "Strands Memory " ++ now_str
      (kbSuccessResult doc_title (kb_id.getD ""),
       some ⟨content, doc_title, kb_id.getD "", region_name⟩)

/-- `colorama.Style.RESET_ALL`. -/
def Style_RESET_ALL : String := "\x1b[0m"

/-- `color if color else ''`. -/
def pyColorStr : Option String → String
  | none => ""
  | some c => if c = "" then "" else c

/-- Python slice `s[:n]` (first `n` characters). -/
def pyStrTake (s : String) (n : Nat) : String := String.mk (s.toList.take n)

/-- `format_message` (handlers/callback_handler.py, lines 28-32). -/
def format_message (message : String) (color : Option String)
    (max_length : Nat) : String :=
  let msg :=
    if message.length > max_length then pyStrTake message max_length ++ "..."
    else message
  pyColorStr color ++ msg ++ Style_RESET_ALL


/-! Helper lemmas about the embedded dictionary and the handler phases. -/

theorem strlen_mk (l : List Char) : (String.mk l).length = l.length := rfl

theorem strlen_append (a b : String) :
    (a ++ b).length = a.length + b.length := by
  cases a with
  | mk la =>
    cases b with
    | mk lb =>
      show (String.mk (la ++ lb)).length =
        (String.mk la).length + (String.mk lb).length
      simp [strlen_mk]

theorem dictLookup_dictInsert_self (k : Option String) (v : ToolHistoryEntry) :
    ∀ l, dictLookup k (dictInsert k v l) = some v := by
  intro l
  induction l with
  | nil => simp [dictInsert, dictLookup]
  | cons p rest ih =>
    by_cases h : p.1 = k <;> simp [dictInsert, dictLookup, h, ih]

theorem dictLookup_dictInsert_ne (k k2 : Option String) (v : ToolHistoryEntry)
    (h : k2 ≠ k) : ∀ l, dictLookup k2 (dictInsert k v l) = dictLookup k2 l := by
  intro l
  have h2 : k ≠ k2 := Ne.symm h
  induction l with
  | nil => simp [dictInsert, dictLookup, h2]
  | cons p rest ih =>
    by_cases hp : p.1 = k
    · subst hp
      simp [dictInsert, dictLookup, h2]
    · simp [dictInsert, dictLookup, hp, ih]

theorem eqButThinking_trans {a b c : CallbackHandler}
    (h1 : eqButThinking a b) (h2 : eqButThinking b c) : eqButThinking a c :=
  ⟨h1.1.trans h2.1, h1.2.1.trans h2.2.1, h1.2.2.trans h2.2.2⟩

theorem tryStep1_ebt (f : RSite → Bool) (s : CallbackHandler)
    (r : CallbackRecord) :
    ∀ y, (tryStep1 f s r = Except.ok y ∨ tryStep1 f s r = Except.error y) →
      eqButThinking y.1 s := by
  intro y h
  unfold tryStep1 at h
  by_cases c : s.thinking_spinner.isSome = true ∧
      (¬r.data = "" ∨ r.current_tool_use.isSome = true) <;>
    by_cases cf : f RSite.preemptStop = true <;>
    simp_all [eqButThinking, stopThinking]
  all_goals (subst h; simp)

theorem tryStep2_ebt (f : RSite → Bool) (r : CallbackRecord) (x : Res) :
    ∀ y, (tryStep2 f r x = Except.ok y ∨ tryStep2 f r x = Except.error y) →
      eqButThinking y.1 x.1 := by
  intro y h
  unfold tryStep2 at h
  by_cases c : r.init_event_loop = true <;>
    by_cases cf : f RSite.statusStart = true <;>
    simp_all [eqButThinking]
  all_goals (subst h; simp)

theorem tryStep3_ebt (f : RSite → Bool) (r : CallbackRecord) (x : Res) :
    ∀ y, (tryStep3 f r x = Except.ok y ∨ tryStep3 f r x = Except.error y) →
      eqButThinking y.1 x.1 := by
  intro y h
  unfold tryStep3 at h
  by_cases c : ¬r.reasoningText = "" <;>
    by_cases cf : f RSite.reasonPrint = true <;>
    simp_all [eqButThinking]
  all_goals (subst h; simp)

theorem tryStep4_ebt (f : RSite → Bool) (r : CallbackRecord) (x : Res) :
    ∀ y, (tryStep4 f r x = Except.ok y ∨ tryStep4 f r x = Except.error y) →
      eqButThinking y.1 x.1 := by
  intro y h
  unfold tryStep4 at h
  by_cases c : r.start_event_loop = true <;>
    rcases hth : x.1.thinking_spinner with _ | tv <;>
    by_cases cf : f RSite.statusUpdate = true <;>
    simp_all [eqButThinking]
  all_goals (subst h; simp)

theorem tryPhase_ebt (f : RSite → Bool) (s : CallbackHandler)
    (r : CallbackRecord) : eqButThinking (tryPhase f s r).1 s := by
  rcases h1 : tryStep1 f s r with x1 | x1
  · have e1 := tryStep1_ebt f s r x1 (Or.inr h1)
    simpa [tryPhase, Bind.bind, Except.bind, h1] using e1
  · have e1 := tryStep1_ebt f s r x1 (Or.inl h1)
    rcases h2 : tryStep2 f r x1 with x2 | x2
    · have e2 := tryStep2_ebt f r x1 x2 (Or.inr h2)
      simpa [tryPhase, Bind.bind, Except.bind, h1, h2] using
        eqButThinking_trans e2 e1
    · have e2 := tryStep2_ebt f r x1 x2 (Or.inl h2)
      rcases h3 : tryStep3 f r x2 with x3 | x3
      · have e3 := tryStep3_ebt f r x2 x3 (Or.inr h3)
        simpa [tryPhase, Bind.bind, Except.bind, h1, h2, h3] using
          eqButThinking_trans e3 (eqButThinking_trans e2 e1)
      · have e3 := tryStep3_ebt f r x2 x3 (Or.inl h3)
        rcases h4 : tryStep4 f r x3 with x4 | x4
        · have e4 := tryStep4_ebt f r x3 x4 (Or.inr h4)
          simpa [tryPhase, Bind.bind, Except.bind, h1, h2, h3, h4] using
            eqButThinking_trans e4
              (eqButThinking_trans e3 (eqButThinking_trans e2 e1))
        · have e4 := tryStep4_ebt f r x3 x4 (Or.inl h4)
          simpa [tryPhase, Bind.bind, Except.bind, h1, h2, h3, h4] using
            eqButThinking_trans e4
              (eqButThinking_trans e3 (eqButThinking_trans e2 e1))

theorem throttlePhase_ok (f : RSite → Bool) (r : CallbackRecord) (x : Res)
    (h1 : f RSite.throttleSpinStop = false)
    (h2 : f RSite.throttleConsole = false) :
    ∃ y, throttlePhase f r x = Except.ok y ∧
      y.1.current_tool = x.1.current_tool ∧
      y.1.tool_histories = x.1.tool_histories ∧
      y.1.thinking_spinner = x.1.thinking_spinner := by
  rcases hd : r.event_loop_throttled_delay with _ | d
  · simp [throttlePhase, hd]
  · by_cases c : d ≠ 0 ∧ r.console = true
    · rcases hsp : x.1.current_spinner with _ | sp <;>
        simp_all [throttlePhase, hd, stopSpinner]
    · simp [throttlePhase, hd, c]

theorem forcePhase_ok (f : RSite → Bool) (r : CallbackRecord) (x : Res)
    (h1 : f RSite.forceThinkStop = false)
    (h2 : f RSite.forceSpinStop = false) :
    ∃ y, forcePhase f r x = Except.ok y ∧
      y.1.current_tool = x.1.current_tool ∧
      y.1.tool_histories = x.1.tool_histories := by
  by_cases c : r.force_stop = true
  · rcases hth : x.1.thinking_spinner with _ | tv <;>
      rcases hsp : x.1.current_spinner with _ | sp <;>
      simp_all [forcePhase, forceSpinStep, stopThinking, stopSpinner, hth, hsp]
  · simp [forcePhase, c]

theorem dataPhase_ok (f : RSite → Bool) (r : CallbackRecord) (x : Res)
    (h : f RSite.dataPrint = false) :
    ∃ y, dataPhase f r x = Except.ok y ∧ y.1 = x.1 := by
  by_cases c : ¬r.data = "" <;> simp_all [dataPhase]

theorem toolPhase_id (f : RSite → Bool) (now : Nat) (r : CallbackRecord)
    (x : Res) (hctu : r.current_tool_use = none) :
    toolPhase f now r x = Except.ok x := by
  simp [toolPhase, hctu]

theorem messagePhase_id (f : RSite → Bool) (now : Nat) (r : CallbackRecord)
    (x : Res) (hmsg : r.message = none) :
    messagePhase f now r x = Except.ok x := by
  simp [messagePhase, hmsg]

theorem toolStartSpinner_ok (f : RSite → Bool) (now : Nat) (tu : ToolUse)
    (s : CallbackHandler) (out : List OutEvent)
    (h : f RSite.spinStart = false) :
    ∃ y, toolStartSpinner f now tu s out = Except.ok y := by
  simp [toolStartSpinner, h]

theorem toolPhase_ok (f : RSite → Bool) (now : Nat) (r : CallbackRecord)
    (x : Res) (h1 : f RSite.newSpinStop = false)
    (h2 : f RSite.spinStart = false) (h3 : f RSite.spinUpdate = false) :
    ∃ y, toolPhase f now r x = Except.ok y := by
  rcases hctu : r.current_tool_use with _ | tu
  · simp [toolPhase, hctu]
  · by_cases hin : ¬tu.input = ""
    · have hup : ∀ z : Res, ∃ y, toolUpdatePart f tu z = Except.ok y := by
        intro z
        rcases hl : dictLookup tu.toolUseId z.1.tool_histories with _ | e
        · simp [toolUpdatePart, hl]
        · by_cases hc : tu.input.length > e.input_size
          · rcases hsp : z.1.current_spinner with _ | sp <;>
              simp_all [toolUpdatePart, hl]
          · simp [toolUpdatePart, hl, hc]
      have hnew : ∃ z, toolNewPart f now tu x = Except.ok z := by
        by_cases heq : tu.toolUseId = x.1.current_tool
        · exact ⟨x, by simp [toolNewPart, heq]⟩
        · rcases hsp : x.1.current_spinner with _ | sp
          · obtain ⟨y, hy⟩ := toolStartSpinner_ok f now tu x.1 x.2 h2
            exact ⟨y, by simp [toolNewPart, heq, hsp, hy]⟩
          · obtain ⟨y, hy⟩ := toolStartSpinner_ok f now tu (stopSpinner x.1)
              (x.2 ++ [OutEvent.spinnerStopEv]) h2
            exact ⟨y, by simp [toolNewPart, heq, hsp, h1, hy]⟩
      obtain ⟨z, hz⟩ := hnew
      obtain ⟨y, hy⟩ := hup z
      exact ⟨y, by simp [toolPhase, hctu, hin, hz, hy]⟩
    · simp_all [toolPhase, hctu]

theorem assistantLoop_ok (f : RSite → Bool) (h : f RSite.spinInfo = false) :
    ∀ (l : List ContentBlock) (x : Res),
      ∃ y, assistantLoop f l x = Except.ok y := by
  intro l
  induction l with
  | nil => intro x; exact ⟨x, rfl⟩
  | cons c rest ih =>
    intro x
    rcases htu : c.toolUse with _ | tub
    · simpa [assistantLoop, htu] using ih x
    · rcases hsp : x.1.current_spinner with _ | sp
      · simpa [assistantLoop, htu, hsp] using ih x
      · simpa [assistantLoop, htu, hsp, h] using ih _

theorem userLoop_ok (f : RSite → Bool) (now : Nat)
    (h1 : f RSite.spinSucceed = false) (h2 : f RSite.spinFail = false) :
    ∀ (l : List ContentBlock) (x : Res),
      ∃ y, userLoop f now l x = Except.ok y := by
  intro l
  induction l with
  | nil => intro x; exact ⟨x, rfl⟩
  | cons c rest ih =>
    intro x
    rcases htr : c.toolResult with _ | tr
    · simpa [userLoop, htr] using ih x
    · rcases hl : dictLookup tr.toolUseId x.1.tool_histories with _ | info
      · simpa [userLoop, htr, hl] using ih x
      · by_cases hst : tr.status = some "success" <;>
          rcases hsp : x.1.current_spinner with _ | sp <;>
          simp_all [userLoop]

theorem messagePhase_ok (f : RSite → Bool) (now : Nat) (r : CallbackRecord)
    (x : Res) (h1 : f RSite.spinInfo = false)
    (h2 : f RSite.spinSucceed = false) (h3 : f RSite.spinFail = false) :
    ∃ y, messagePhase f now r x = Except.ok y := by
  rcases hm : r.message with _ | m
  · simp [messagePhase, hm]
  · by_cases ha : m.role = some "assistant"
    · obtain ⟨y, hy⟩ := assistantLoop_ok f h1 m.content x
      exact ⟨y, by simp [messagePhase, hm, ha, hy]⟩
    · by_cases hu : m.role = some "user"
      · obtain ⟨y, hy⟩ := userLoop_ok f now h2 h3 m.content x
        exact ⟨y, by simp [messagePhase, hm, ha, hu, hy]⟩
      · simp [messagePhase, hm, ha, hu]

theorem callback_frame (t : Nat) (r : CallbackRecord) (s : CallbackHandler)
    (hctu : r.current_tool_use = none) (hmsg : r.message = none) :
    ∃ y, callback_handler noFaults t s r = Except.ok y ∧
      y.1.tool_histories = s.tool_histories ∧
      y.1.current_tool = s.current_tool := by
  have e0 := tryPhase_ebt noFaults s r
  obtain ⟨y1, hy1, hc1, hh1, -⟩ := throttlePhase_ok noFaults r
    (tryPhase noFaults s r) rfl rfl
  obtain ⟨y2, hy2, hc2, hh2⟩ := forcePhase_ok noFaults r y1 rfl rfl
  obtain ⟨y3, hy3, he3⟩ := dataPhase_ok noFaults r y2 rfl
  refine ⟨y3, ?_, ?_, ?_⟩
  · simp [callback_handler, hy1, hy2, hy3,
      toolPhase_id noFaults t r y3 hctu, messagePhase_id noFaults t r y3 hmsg]
  · rw [he3, hh2, hh1]; exact e0.2.2
  · rw [he3, hc2, hc1]; exact e0.2.1

theorem runSeq_frame :
    ∀ (l : List (Nat × CallbackRecord)) (s : CallbackHandler),
    (∀ p ∈ l, p.2.current_tool_use = none ∧ p.2.message = none) →
    ∃ y, runSeq noFaults l s = Except.ok y ∧
      y.1.tool_histories = s.tool_histories ∧
      y.1.current_tool = s.current_tool := by
  intro l
  induction l with
  | nil => intro s _; exact ⟨(s, []), rfl, rfl, rfl⟩
  | cons p rest ih =>
    intro s hmem
    obtain ⟨y, hy, hh, hc⟩ := callback_frame p.1 p.2 s
      (hmem p (List.mem_cons_self p rest)).1
      (hmem p (List.mem_cons_self p rest)).2
    obtain ⟨z, hz, hzh, hzc⟩ := ih y.1
      (fun q hq => hmem q (List.mem_cons_of_mem p hq))
    refine ⟨(z.1, y.2 ++ z.2), ?_, ?_, ?_⟩
    · simp [runSeq, hy, hz]
    · simpa [hzh] using hh
    · simpa [hzc] using hc

/-! The claims. -/

/-- C1, counterexample: with a live tool spinner and a rendering layer
whose `ToolSpinner.stop` raises at the force-stop site (a site outside the
try/except block), `callback_handler` on a `force_stop` record propagates
the exception to its caller, contradicting the claim that the handle never
propagates an exception for all field combinations and internal states. -/
theorem C1_counterexample :
    (callback_handler onlyForceSpinFault 0
      ⟨none, some ⟨true, "t"⟩, none, []⟩ forceStopRecord).toOption = none ∧
    inThinkingTry RSite.forceSpinStop = false := by
  decide

/-- C1, amended: only exceptions raised at the call sites inside the
try/except block (thinking-indicator preemption, status start/update and
the reasoning print) are swallowed; whenever the rendering layer raises at
no call site outside that block, `callback_handler` never propagates an
exception, for every internal state and record. -/
theorem C1_amended_swallow_scope (f : RSite → Bool)
    (h : ∀ site, inThinkingTry site = false → f site = false)
    (now : Nat) (s : CallbackHandler) (r : CallbackRecord) :
    ∃ y, callback_handler f now s r = Except.ok y := by
  obtain ⟨y1, hy1, -⟩ := throttlePhase_ok f r (tryPhase f s r)
    (h RSite.throttleSpinStop rfl) (h RSite.throttleConsole rfl)
  obtain ⟨y2, hy2, -⟩ := forcePhase_ok f r y1
    (h RSite.forceThinkStop rfl) (h RSite.forceSpinStop rfl)
  obtain ⟨y3, hy3, -⟩ := dataPhase_ok f r y2 (h RSite.dataPrint rfl)
  obtain ⟨y4, hy4⟩ := toolPhase_ok f now r y3
    (h RSite.newSpinStop rfl) (h RSite.spinStart rfl) (h RSite.spinUpdate rfl)
  obtain ⟨y5, hy5⟩ := messagePhase_ok f now r y4
    (h RSite.spinInfo rfl) (h RSite.spinSucceed rfl) (h RSite.spinFail rfl)
  exact ⟨y5, by simp [callback_handler, hy1, hy2, hy3, hy4, hy5]⟩

/-- C1, witness: the amended theorem applied with a fault-free rendering
layer on a concrete record. -/
theorem C1_witness :
    (callback_handler noFaults 0 initCallbackHandler
      forceStopRecord).toOption.isSome = true := by
  obtain ⟨y, hy⟩ := C1_amended_swallow_scope noFaults (fun _ _ => rfl) 0
    initCallbackHandler forceStopRecord
  simp [hy, Except.toOption]

/-- C2: from the fresh presenter state, a `current_tool_use` with a new
tool-use id and nonempty input creates exactly one `tool_histories` entry,
and the matching success `toolResult` removes it and leaves `current_tool`
null (the state returns to the initial one). -/
theorem C2_start_then_success : ∀ (i : String) (nm : Option String)
    (inp : String), inp ≠ "" → ∀ (t1 t2 : Nat),
    stateAfter noFaults t1 initCallbackHandler
      (toolUseRecord (some i) nm inp) =
      some ⟨none, some ⟨true, charsText nm inp.length⟩, some i,
            [(some i, ⟨nm, t1, inp.length⟩)]⟩ ∧
    stateAfter noFaults t2
      ⟨none, some ⟨true, charsText nm inp.length⟩, some i,
       [(some i, ⟨nm, t1, inp.length⟩)]⟩
      (toolResultRecord (some i) (some "success")) =
      some initCallbackHandler := by
  intro i nm inp hne t1 t2
  have hlen : 0 < inp.length := by
    cases inp with
    | mk l =>
      cases l with
      | nil => exact absurd rfl hne
      | cons a as => simp [String.length]
  constructor
  · simp [stateAfter, runOne, callback_handler, tryPhase, tryStep1, tryStep2,
      tryStep3, tryStep4, throttlePhase, forcePhase, forceSpinStep, dataPhase,
      toolPhase, toolNewPart, toolStartSpinner, toolUpdatePart, messagePhase,
      noFaults, toolUseRecord, initCallbackHandler, dictInsert, dictLookup,
      Except.toOption, Bind.bind, Except.bind, hne, hlen]
  · simp [stateAfter, runOne, callback_handler, tryPhase, tryStep1, tryStep2,
      tryStep3, tryStep4, throttlePhase, forcePhase, forceSpinStep, dataPhase,
      toolPhase, messagePhase, userLoop, userCleanup, noFaults,
      toolResultRecord, initCallbackHandler, dictLookup, dictErase,
      Except.toOption, Bind.bind, Except.bind]

/-- C2, witness: the two transitions at a concrete id, name, input and
clock readings. -/
theorem C2_witness :
    stateAfter noFaults 3 initCallbackHandler
      (toolUseRecord (some "A") (some "calc") "xy") =
      some ⟨none, some ⟨true, charsText (some "calc") 2⟩, some "A",
            [(some "A", ⟨some "calc", 3, 2⟩)]⟩ ∧
    stateAfter noFaults 7
      ⟨none, some ⟨true, charsText (some "calc") 2⟩, some "A",
       [(some "A", ⟨some "calc", 3, 2⟩)]⟩
      (toolResultRecord (some "A") (some "success")) =
      some initCallbackHandler := by
  have h := C2_start_then_success "A" (some "calc") "xy" (by decide) 3 7
  have e : ("xy" : String).length = 2 := by decide
  rw [e] at h
  exact h

/-- C3: per-tool progress display is monotone.  Generally: when the
incoming `current_tool_use` continues the current invocation (same id as
`current_tool`, tracked in `tool_histories`, spinner live), an input no
longer than the recorded maximum causes no spinner size update and leaves
the histories unchanged, while a strictly longer input bumps the recorded
maximum and shows exactly one size update.  Concretely: inputs of lengths
5, 12, 12, 20 for one id show size updates exactly at 5, 12 and 20. -/
theorem C3_monotone_progress :
    (∀ (s : CallbackHandler) (tid : Option String) (e : ToolHistoryEntry)
      (sp : ToolSpinner) (nm : Option String) (inp : String) (t : Nat),
      s.current_tool = tid → dictLookup tid s.tool_histories = some e →
      s.current_spinner = some sp → inp ≠ "" →
      (inp.length ≤ e.input_size →
        historiesAfter noFaults t s (toolUseRecord tid nm inp) =
          some s.tool_histories ∧
        sizeUpdatesAfter noFaults t s (toolUseRecord tid nm inp) = some []) ∧
      (e.input_size < inp.length →
        historiesAfter noFaults t s (toolUseRecord tid nm inp) =
          some (dictInsert tid ⟨e.name, e.start_time, inp.length⟩
            s.tool_histories) ∧
        sizeUpdatesAfter noFaults t s (toolUseRecord tid nm inp) =
          some [OutEvent.spinnerUpdate (charsText nm inp.length)])) ∧
    (runSeq noFaults
        [(0, toolUseRecord (some "T") (some "nm") "aaaaa"),
         (1, toolUseRecord (some "T") (some "nm") "bbbbbbbbbbbb"),
         (2, toolUseRecord (some "T") (some "nm") "cccccccccccc"),
         (3, toolUseRecord (some "T") (some "nm") "dddddddddddddddddddd")]
        initCallbackHandler).toOption.map (fun x => x.2.filter isSizeUpdate) =
      some [OutEvent.spinnerUpdate (charsText (some "nm") 5),
            OutEvent.spinnerUpdate (charsText (some "nm") 12),
            OutEvent.spinnerUpdate (charsText (some "nm") 20)] := by
  constructor
  · intro s tid e sp nm inp t hct hl hsp hinp
    obtain ⟨th, spo, ct, hs⟩ := s
    simp only at hct hsp hl
    subst hct; subst hsp
    constructor
    · intro hle
      have hngt : ¬inp.length > e.input_size := by omega
      cases th <;>
        simp [historiesAfter, sizeUpdatesAfter, runOne, callback_handler,
          tryPhase, tryStep1, tryStep2, tryStep3, tryStep4, throttlePhase,
          forcePhase, dataPhase, toolPhase, toolNewPart, toolUpdatePart,
          messagePhase, stopThinking, noFaults, toolUseRecord, isSizeUpdate,
          Except.toOption, Bind.bind, Except.bind, hl, hngt, hinp]
    · intro hgt
      cases th <;>
        simp [historiesAfter, sizeUpdatesAfter, runOne, callback_handler,
          tryPhase, tryStep1, tryStep2, tryStep3, tryStep4, throttlePhase,
          forcePhase, dataPhase, toolPhase, toolNewPart, toolUpdatePart,
          messagePhase, stopThinking, noFaults, toolUseRecord, isSizeUpdate,
          Except.toOption, Bind.bind, Except.bind, hl, hgt, hinp]
  · decide

/-- C3, witness: the no-update branch at a concrete state whose recorded
maximum is 3 and whose incoming input has length 2. -/
theorem C3_witness :
    historiesAfter noFaults 5
      ⟨none, some ⟨true, "x"⟩, some "T", [(some "T", ⟨some "nm", 0, 3⟩)]⟩
      (toolUseRecord (some "T") (some "nm") "ab") =
      some [(some "T", ⟨some "nm", 0, 3⟩)] ∧
    sizeUpdatesAfter noFaults 5
      ⟨none, some ⟨true, "x"⟩, some "T", [(some "T", ⟨some "nm", 0, 3⟩)]⟩
      (toolUseRecord (some "T") (some "nm") "ab") = some [] := by
  have h := (C3_monotone_progress.1
    ⟨none, some ⟨true, "x"⟩, some "T", [(some "T", ⟨some "nm", 0, 3⟩)]⟩
    (some "T") ⟨some "nm", 0, 3⟩ ⟨true, "x"⟩ (some "nm") "ab" 5
    rfl (by decide) rfl (by decide)).1 (by decide)
  exact h

/-- C4: with a live spinner for tool id A, a `current_tool_use` for a
different id B with nonempty input stops the A spinner before starting the
B spinner (the spinner lifecycle events are exactly stop-then-start), and
afterwards `tool_histories` holds the untouched A entry together with the
fresh B entry. -/
theorem C4_new_tool_stops_previous_keeps_history :
    ∀ (s : CallbackHandler) (A B : String) (spA : ToolSpinner)
    (eA : ToolHistoryEntry) (nmB : Option String) (inp : String) (t : Nat),
    s.current_tool = some A → s.current_spinner = some spA →
    spA.active = true → dictLookup (some A) s.tool_histories = some eA →
    B ≠ A → inp ≠ "" →
    lookupAfter noFaults t s (toolUseRecord (some B) nmB inp) (some A) =
      some (some eA) ∧
    lookupAfter noFaults t s (toolUseRecord (some B) nmB inp) (some B) =
      some (some ⟨nmB, t, inp.length⟩) ∧
    spinEventsAfter noFaults t s (toolUseRecord (some B) nmB inp) =
      some [OutEvent.spinnerStopEv,
            OutEvent.spinnerStart (preparingText nmB)] := by
  intro s A B spA eA nmB inp t hct hsp hact hA hne hinp
  have hlen : 0 < inp.length := by
    cases inp with
    | mk l =>
      cases l with
      | nil => exact absurd rfl hinp
      | cons a as => simp [String.length]
  have hBA : (some B : Option String) ≠ some A := by simpa using hne
  have hAB : (some A : Option String) ≠ some B := by simpa using Ne.symm hne
  have hra : ∀ v l, dictLookup (some A) (dictInsert (some B) v l) =
      dictLookup (some A) l :=
    fun v l => dictLookup_dictInsert_ne (some B) (some A) v hAB l
  obtain ⟨th, sp, ct, hs⟩ := s
  simp only at hct hsp
  subst hct; subst hsp
  cases th <;>
    simp [lookupAfter, spinEventsAfter, runOne, callback_handler, tryPhase,
      tryStep1, tryStep2, tryStep3, tryStep4, throttlePhase, forcePhase,
      dataPhase, toolPhase, toolNewPart, toolStartSpinner, toolUpdatePart,
      messagePhase, stopThinking, stopSpinner, noFaults, toolUseRecord,
      isSpinLifecycle, Except.toOption, Bind.bind, Except.bind,
      hBA, hra, dictLookup_dictInsert_self, hA, hlen, hinp]

/-- C4, witness: concrete ids A and B, with the A entry kept and the B
entry fresh. -/
theorem C4_witness :
    lookupAfter noFaults 9
      ⟨none, some ⟨true, "x"⟩, some "A", [(some "A", ⟨some "a1", 0, 1⟩)]⟩
      (toolUseRecord (some "B") (some "nb") "zz") (some "A") =
      some (some ⟨some "a1", 0, 1⟩) ∧
    lookupAfter noFaults 9
      ⟨none, some ⟨true, "x"⟩, some "A", [(some "A", ⟨some "a1", 0, 1⟩)]⟩
      (toolUseRecord (some "B") (some "nb") "zz") (some "B") =
      some (some ⟨some "nb", 9, 2⟩) ∧
    spinEventsAfter noFaults 9
      ⟨none, some ⟨true, "x"⟩, some "A", [(some "A", ⟨some "a1", 0, 1⟩)]⟩
      (toolUseRecord (some "B") (some "nb") "zz") =
      some [OutEvent.spinnerStopEv,
            OutEvent.spinnerStart (preparingText (some "nb"))] := by
  have h := C4_new_tool_stops_previous_keeps_history
    ⟨none, some ⟨true, "x"⟩, some "A", [(some "A", ⟨some "a1", 0, 1⟩)]⟩
    "A" "B" ⟨true, "x"⟩ ⟨some "a1", 0, 1⟩ (some "nb") "zz" 9
    rfl rfl rfl (by decide) (by decide) (by decide)
  have e : ("zz" : String).length = 2 := by decide
  rw [e] at h
  exact h

/-- C5, counterexample: a record whose `event_loop_throttled_delay` field
is present with value 0, together with a console handle and a live tool
spinner, is a complete no-op: the spinner stays active and no throttle
notice is printed, contradicting the claim for every record with the field
present. -/
theorem C5_counterexample :
    runOne noFaults 0 ⟨none, some ⟨true, "w"⟩, some "A", []⟩
      (throttleRecord (some 0) true) =
      some (⟨none, some ⟨true, "w"⟩, some "A", []⟩, []) ∧
    (throttleRecord (some 0) true).event_loop_throttled_delay = some 0 := by
  decide

/-- C5, amended: for a record carrying a present and nonzero
`event_loop_throttled_delay` together with a console handle, the handle
stops any active tool spinner and prints exactly one throttle notice; with
the delay present but no console handle, the call is a complete no-op. -/
theorem C5_amended_throttle : ∀ (s : CallbackHandler) (d t : Nat),
    (d ≠ 0 →
      stateAfter noFaults t s (throttleRecord (some d) true) =
        some (stopSpinner s) ∧
      noticesAfter noFaults t s (throttleRecord (some d) true) =
        some [OutEvent.consolePrint (throttleText d)]) ∧
    runOne noFaults t s (throttleRecord (some d) false) = some (s, []) := by
  intro s d t
  obtain ⟨th, sp, ct, hs⟩ := s
  constructor
  · intro hd
    cases sp <;>
      simp [stateAfter, noticesAfter, runOne, callback_handler, tryPhase,
        tryStep1, tryStep2, tryStep3, tryStep4, throttlePhase, forcePhase,
        dataPhase, toolPhase, messagePhase, stopSpinner, noFaults,
        throttleRecord, isThrottleNotice, Except.toOption, Bind.bind,
        Except.bind, hd]
  · cases sp <;>
      simp [runOne, callback_handler, tryPhase, tryStep1, tryStep2, tryStep3,
        tryStep4, throttlePhase, forcePhase, dataPhase, toolPhase,
        messagePhase, noFaults, throttleRecord, Except.toOption,
        Bind.bind, Except.bind]

/-- C5, witness: delay 5 with a live spinner stops it and prints one
notice; the same delay with no console does nothing. -/
theorem C5_witness :
    stateAfter noFaults 0 ⟨none, some ⟨true, "w"⟩, some "A", []⟩
      (throttleRecord (some 5) true) =
      some ⟨none, some ⟨false, "w"⟩, some "A", []⟩ ∧
    noticesAfter noFaults 0 ⟨none, some ⟨true, "w"⟩, some "A", []⟩
      (throttleRecord (some 5) true) =
      some [OutEvent.consolePrint (throttleText 5)] ∧
    runOne noFaults 0 ⟨none, some ⟨true, "w"⟩, some "A", []⟩
      (throttleRecord (some 5) false) =
      some (⟨none, some ⟨true, "w"⟩, some "A", []⟩, []) := by
  have h := C5_amended_throttle ⟨none, some ⟨true, "w"⟩, some "A", []⟩ 5 0
  exact ⟨(h.1 (by decide)).1, (h.1 (by decide)).2, h.2⟩

/-- C6: a `force_stop` record deactivates both the thinking indicator and
the tool spinner when they are live, raises no error on any state, and is
idempotent: from the already-deactivated state a second `force_stop`
returns the same state. -/
theorem C6_force_stop_idempotent : ∀ (s : CallbackHandler) (t : Nat),
    stateAfter noFaults t s forceStopRecord = some (deactivated s) ∧
    stateAfter noFaults t (deactivated s) forceStopRecord =
      some (deactivated s) := by
  intro s t
  obtain ⟨th, sp, ct, hs⟩ := s
  cases th <;> cases sp <;>
    simp [stateAfter, runOne, callback_handler, tryPhase, tryStep1, tryStep2,
      tryStep3, tryStep4, throttlePhase, forcePhase, forceSpinStep, dataPhase,
      toolPhase, messagePhase, noFaults, forceStopRecord, stopThinking,
      stopSpinner, deactivated, Except.toOption, Bind.bind, Except.bind]

/-- C7: a user message whose `toolResult` id has no `tool_histories` entry
is a complete no-op: the call returns the state unchanged, with no
rendering events and no exception. -/
theorem C7_unmatched_result_noop : ∀ (s : CallbackHandler)
    (tid : Option String) (st : Option String) (t : Nat),
    dictLookup tid s.tool_histories = none →
    runOne noFaults t s (toolResultRecord tid st) = some (s, []) := by
  intro s tid st t h
  simp [runOne, callback_handler, tryPhase, tryStep1, tryStep2,
    tryStep3, tryStep4, throttlePhase, forcePhase, forceSpinStep, dataPhase,
    toolPhase, messagePhase, userLoop, noFaults, toolResultRecord,
    Except.toOption, Bind.bind, Except.bind, h]

/-- C7, witness: an untracked id against the fresh state. -/
theorem C7_witness :
    runOne noFaults 0 initCallbackHandler
      (toolResultRecord (some "Z") (some "success")) =
      some (initCallbackHandler, []) :=
  C7_unmatched_result_noop initCallbackHandler (some "Z") (some "success") 0
    (by decide)

/-- C8: over any sequence of records carrying neither `current_tool_use`
nor `message`, run from the initial state, `tool_histories` stays empty
and `current_tool` stays null. -/
theorem C8_no_tool_fields_frame : ∀ (l : List (Nat × CallbackRecord)),
    (∀ p ∈ l, p.2.current_tool_use = none ∧ p.2.message = none) →
    (runSeq noFaults l initCallbackHandler).toOption.map
      (fun y => (y.1.tool_histories, y.1.current_tool)) =
      some ([], none) := by
  intro l h
  obtain ⟨y, hy, hh, hc⟩ := runSeq_frame l initCallbackHandler h
  simp only [initCallbackHandler] at hh hc
  simp [hy, Except.toOption, hh, hc]

/-- C8, witness: a concrete mixed sequence of data, lifecycle, throttle
and force-stop records. -/
theorem C8_witness :
    (runSeq noFaults
      [(0, { data := "hi" }),
       (1, { init_event_loop := true, console := true }),
       (2, { start_event_loop := true, reasoningText := "th" }),
       (3, { event_loop_throttled_delay := some 4, console := true }),
       (4, forceStopRecord),
       (5, { data := "done", complete := true })]
      initCallbackHandler).toOption.map
      (fun y => (y.1.tool_histories, y.1.current_tool)) =
      some ([], none) := by
  exact C8_no_tool_fields_frame _ (by decide)

/-- C9: `store_in_kb` validates synchronously and returns immediately:
empty or whitespace-only content, or an unresolvable knowledge-base id,
yields an error-status result with no background task spawned; otherwise
the result has success status and the ingestion is handed, already fully
determined, to a detached background task whose outcome never reaches the
caller. -/
theorem C9_store_in_kb_contract : ∀ (content : String)
    (title kbarg : Option String) (env : KBEnv) (ns : String),
    ((content = "" ∨ content.toList.all pyIsSpace) →
      (store_in_kb content title kbarg env ns).1.status = "error" ∧
      (store_in_kb content title kbarg env ns).2 = none) ∧
    (¬(content = "" ∨ content.toList.all pyIsSpace) →
      pyStrTruthy (resolveKbId kbarg env) = false →
      (store_in_kb content title kbarg env ns).1.status = "error" ∧
      (store_in_kb content title kbarg env ns).2 = none) ∧
    (¬(content = "" ∨ content.toList.all pyIsSpace) →
      pyStrTruthy (resolveKbId kbarg env) = true →
      (store_in_kb content title kbarg env ns).1.status = "success" ∧
      (store_in_kb content title kbarg env ns).2 =
        some ⟨content,
          (if pyStrTruthy title then title.getD ""
           else "Strands Memory " ++ ns),
          (resolveKbId kbarg env).getD "",
          env.aws_region.getD "us-west-2"⟩) := by
  intro content title kbarg env ns
  refine ⟨fun h => ?_, fun h hf => ?_, fun h ht => ?_⟩
  · unfold store_in_kb
    rw [if_pos h]
    simp [kbEmptyError]
  · unfold store_in_kb
    rw [if_neg h]
    simp [hf, kbNoIdError]
  · unfold store_in_kb
    rw [if_neg h]
    simp [ht, kbSuccessResult]

/-- C9, witness: valid content with an explicit knowledge-base id returns
success immediately and spawns the background task with the resolved
arguments. -/
theorem C9_witness :
    (store_in_kb "hello" (some "t1") (some "kb1") ⟨none, none⟩ "x").1.status =
      "success" ∧
    (store_in_kb "hello" (some "t1") (some "kb1") ⟨none, none⟩ "x").2 =
      some ⟨"hello", "t1", "kb1", "us-west-2"⟩ := by
  have h := (C9_store_in_kb_contract "hello" (some "t1") (some "kb1")
    ⟨none, none⟩ "x").2.2 (by decide) (by decide)
  simpa using h

/-- C10: `format_message` returns the message wrapped only in the color
prefix and reset suffix when it fits in `max_length`, and otherwise wraps
the first `max_length` characters followed by three dots, whose visible
text has length `max_length + 3`. -/
theorem C10_format_message : ∀ (m : String) (c : Option String) (L : Nat),
    (m.length ≤ L →
      format_message m c L = pyColorStr c ++ m ++ Style_RESET_ALL) ∧
    (L < m.length →
      format_message m c L =
        pyColorStr c ++ (pyStrTake m L ++ "...") ++ Style_RESET_ALL ∧
      (pyStrTake m L ++ "...").length = L + 3) := by
  intro m c L
  constructor
  · intro h
    simp [format_message, Nat.not_lt.mpr h]
  · intro h
    refine ⟨by simp [format_message, h], ?_⟩
    have ht : (pyStrTake m L).length = L := by
      cases m with
      | mk l =>
        simp [pyStrTake, strlen_mk, String.toList, String.length] at *
        omega
    rw [strlen_append, ht]
    have h3 : ("..." : String).length = 3 := rfl
    omega

/-- C10, witness: a six-character message truncated at three characters. -/
theorem C10_witness :
    format_message "abcdef" none 3 =
      pyColorStr none ++ (pyStrTake "abcdef" 3 ++ "...") ++ Style_RESET_ALL ∧
    (pyStrTake "abcdef" 3 ++ "...").length = 3 + 3 :=
  (C10_format_message "abcdef" none 3).2 (by decide)


end Arky
